import Mathlib

/-
Formal model of the MK5017/MK5717 Heathkit clock firmware
(src/MK5717_Clock_OTA.ino), as a shallow embedding in Lean.

Machine integers of the source (uint8_t / uint32_t / int) are modelled
as Nat or Int, with explicit reduction modulo 2^32 exactly where the
source's unsigned arithmetic can wrap (micros() differences, the
seconds-since-midnight subtraction in the alarm engine, the snooze
target addition).  Serial prints and hardware peripheral calls carry no
state relevant to the theorems below, except the RMT pulse-train
peripheral, whose play/stop commands are counted so that "does not touch
the peripheral" is expressible.
-/

namespace MK5717

/-- uint32_t modulus. -/
def u32Mod : Nat := 4294967296

/-- Reduce a value to uint32_t range. -/
def u32 (a : Nat) : Nat := a % u32Mod

/-- Wrapping uint32_t subtraction `a - b`. -/
def u32sub (a b : Nat) : Nat := (u32 a + (u32Mod - u32 b)) % u32Mod

/-- Wrapping uint32_t addition `a + b`. -/
def u32add (a b : Nat) : Nat := (a + b) % u32Mod

-- ===== Enumerations (MK5717_Clock_OTA.ino lines 172-238) =====

inductive DisplayMode
  | MODE_TIME
  | MODE_DATE
  | MODE_SET
  | MODE_MESSAGE
deriving DecidableEq

inductive Emulation
  | WIFI
  | MK5017
deriving DecidableEq

/-- `EmulationCount`, the number of members preceding it in `enum Emulation`. -/
def EmulationCount : Nat := 2

inductive Model
  | MODEL_GC_1005
  | MODEL_GC_1092D
  | MODEL_GC_1092A
  | MODEL_GC_1094
  | MODEL_BOGUS
deriving DecidableEq

/-- `ModelCount`, the number of members preceding it in `enum Model`. -/
def ModelCount : Nat := 5

open DisplayMode Emulation Model

/-- Numeric value of each `enum Model` member in the source. -/
def Model.val : Model → Nat
  | MODEL_GC_1005 => 0
  | MODEL_GC_1092D => 1
  | MODEL_GC_1092A => 2
  | MODEL_GC_1094 => 3
  | MODEL_BOGUS => 4

inductive AlarmState
  | ALARM_IDLE
  | ALARM_ARMED
  | ALARM_SOUNDING
  | ALARM_SNOOZE
deriving DecidableEq

open AlarmState

-- ===== Alarm constants (lines 308-309) =====

def SNOOZE_MIN : Nat := 7
def ALARM_MAX_MIN : Nat := 60

-- ===== Tone driver state (lines 99, 1614-1630) =====

/-- The `toneActive` flag together with a count of the commands issued to the
RMT pulse-train peripheral (`rmt_write_items` plays, `rmt_tx_stop` stops),
so that "the function does not touch the peripheral" is expressible. -/
structure ToneState where
  toneActive : Bool
  rmtPlays : Nat
  rmtStops : Nat
deriving DecidableEq

/-- `alarmToneStart` (lines 1614-1621): no-op when the tone is already
active; otherwise issues one play command and raises `toneActive`. -/
def alarmToneStart (s : ToneState) : ToneState :=
  if s.toneActive then s
  else { s with rmtPlays := s.rmtPlays + 1, toneActive := true }

/-- `alarmToneStop` (lines 1623-1630): no-op when the tone is already
inactive; otherwise issues one stop command and clears `toneActive`. -/
def alarmToneStop (s : ToneState) : ToneState :=
  if !s.toneActive then s
  else { s with rmtStops := s.rmtStops + 1, toneActive := false }

-- ===== Alarm engine state (lines 294-309) =====

/-- The global variables read and written by `updateAlarm`, `requestSnooze`
and `alarmToneDriver`.  `timeSeconds`, `alarmSeconds` and `snoozeTargetS`
are uint32_t seconds-since-midnight values. -/
structure AlarmSys where
  alarmState : AlarmState
  alarmEnabled : Bool
  timeSeconds : Nat
  alarmSeconds : Nat
  snoozeTargetS : Nat
  tone : ToneState
deriving DecidableEq

/-- `updateAlarm` (lines 1490-1545), the alarm state machine step. -/
def updateAlarm (s : AlarmSys) : AlarmSys :=
  match s.alarmState with
  | ALARM_IDLE =>
      if s.alarmEnabled then { s with alarmState := ALARM_ARMED } else s
  | ALARM_ARMED =>
      if !s.alarmEnabled then { s with alarmState := ALARM_IDLE }
      else if s.timeSeconds = s.alarmSeconds then { s with alarmState := ALARM_SOUNDING }
      else s
  | ALARM_SOUNDING =>
      if !s.alarmEnabled then
        { s with tone := alarmToneStop s.tone, alarmState := ALARM_IDLE }
      else
        if u32sub s.timeSeconds s.alarmSeconds ≥ ALARM_MAX_MIN * 60 then
          { s with tone := alarmToneStop s.tone, alarmState := ALARM_IDLE }
        else s
  | ALARM_SNOOZE =>
      if !s.alarmEnabled then { s with alarmState := ALARM_IDLE }
      else if s.timeSeconds ≥ s.snoozeTargetS then { s with alarmState := ALARM_SOUNDING }
      else s

/-- `requestSnooze` (lines 1547-1556). -/
def requestSnooze (s : AlarmSys) : AlarmSys :=
  if s.alarmState = ALARM_SOUNDING then
    { s with snoozeTargetS := u32add s.timeSeconds (SNOOZE_MIN * 60),
             tone := alarmToneStop s.tone,
             alarmState := ALARM_SNOOZE }
  else s

/-- `alarmToneDriver` (lines 1558-1575).  `topOfSecond` and `halfSecond`
are the one-loop pulses produced by `handleTimedDispatches`. -/
def alarmToneDriver (s : AlarmSys) (topOfSecond halfSecond : Bool) : AlarmSys :=
  if s.alarmState ≠ ALARM_SOUNDING then
    { s with tone := alarmToneStop s.tone }
  else
    let s1 := if topOfSecond then { s with tone := alarmToneStart s.tone } else s
    if halfSecond then { s1 with tone := alarmToneStop s1.tone } else s1

-- ===== Snooze dispatch guard (lines 1159-1162) =====

/-- C++ value of `a || b` on integer operands: 1 when either is nonzero. -/
def cppBoolOr (a b : Nat) : Nat := if a ≠ 0 ∨ b ≠ 0 then 1 else 0

/-- The guard of the `requestSnooze` dispatch in `DispatchSwitches`
(line 1159), with C++ evaluation made explicit: the enum operands of
`(MODEL_GC_1092D || MODEL_BOGUS)` are converted to bool, or-ed, and the
resulting value 1 is compared against the numeric value of `info.model`. -/
def snoozeGuard (changed : Bool) (m : Model) : Bool :=
  changed && decide (m.val ≠ cppBoolOr MODEL_GC_1092D.val MODEL_BOGUS.val)

/-- Modelled from the spec's description of the apparent intent of the
snooze guard: snooze only when the model is neither `MODEL_GC_1092D` nor
`MODEL_BOGUS`.  This is the comparison definition for the refinement
claim C6; the source definition is `snoozeGuard`. -/
def intendedSnoozeGuard (changed : Bool) (m : Model) : Bool :=
  changed && (decide (m ≠ MODEL_GC_1092D) && decide (m ≠ MODEL_BOGUS))

/-- The `sw_5` branch of `DispatchSwitches` (lines 1159-1162): when the
guard holds, `requestSnooze` runs on the alarm system state. -/
def dispatchSnoozeStep (changed : Bool) (m : Model) (s : AlarmSys) : AlarmSys :=
  if snoozeGuard changed m then requestSnooze s else s

-- ===== Set-mode minute increment (lines 695-703) =====

/-- `incrementMinuteOnes` (lines 695-703): replaces the ones digit of the
`minutes` global with (ones + 1) mod 10; the tens digit is reassembled
unchanged. -/
def incrementMinuteOnes (minutes : Nat) : Nat :=
  let tens := minutes / 10
  let ones := minutes % 10
  let ones1 := (ones + 1) % 10
  tens * 10 + ones1

-- ===== Persisted state (lines 235-238, 1204-1223) =====

structure EmulationInfo where
  emulation : Emulation
  model : Model
deriving DecidableEq

def defaultEmulation : Emulation := WIFI
def defaultModel : Model := MODEL_GC_1005

/-- `static_cast<Emulation>` of a byte already checked to be in range. -/
def Emulation.ofByte (n : Nat) : Emulation :=
  if n = 1 then MK5017 else WIFI

/-- `static_cast<Model>` of a byte already checked to be in range. -/
def Model.ofByte : Nat → Model
  | 0 => MODEL_GC_1005
  | 1 => MODEL_GC_1092D
  | 2 => MODEL_GC_1092A
  | 3 => MODEL_GC_1094
  | _ => MODEL_BOGUS

/-- `loadEEPROM` (lines 1204-1223) applied to the two stored bytes:
offset 0 holds the emulation byte `e`, offset 1 the model byte `md`. -/
def loadEEPROM (e md : Nat) : EmulationInfo :=
  let emu := if e < EmulationCount then Emulation.ofByte e else defaultEmulation
  let model := if md < ModelCount then Model.ofByte md else defaultModel
  ⟨emu, model⟩

-- ===== Debounce engine (lines 243-254, 1103-1124) =====

/-- `struct DebouncedSwitch` (lines 243-250).  `changedAt` is declared in
the source but never written by `debounceSwitch`. -/
structure DebouncedSwitch where
  state : Bool
  changed : Bool
  lastRead : Bool
  lastChange : Nat
  changedAt : Nat
deriving DecidableEq

/-- `debounceDelay` (line 254), in microseconds. -/
def debounceDelay : Nat := 1000

/-- `debounceSwitch` (lines 1103-1124): clears `changed`, restarts the
quiet timer on any raw transition, and accepts the raw value as the new
stable state once the raw sample has been constant for more than
`debounceDelay` microseconds.  `nowMicros - sw.lastChange` is the
wrapping uint32_t subtraction of the source. -/
def debounceSwitch (sw : DebouncedSwitch) (raw : Bool) (nowMicros : Nat) : DebouncedSwitch :=
  let sw1 : DebouncedSwitch := { sw with changed := false }
  let sw2 : DebouncedSwitch :=
    if raw ≠ sw1.lastRead then { sw1 with lastRead := raw, lastChange := nowMicros } else sw1
  if debounceDelay < u32sub nowMicros sw2.lastChange then
    if raw ≠ sw2.state then { sw2 with state := raw, changed := true } else sw2
  else sw2

/-- A sequence of `debounceSwitch` calls on one switch. -/
def debounceRun (sw : DebouncedSwitch) (inputs : List (Bool × Nat)) : DebouncedSwitch :=
  inputs.foldl (fun s p => debounceSwitch s p.1 p.2) sw

/-- How many of the calls in a sequence report `changed = true`. -/
def debounceChangedCount (sw : DebouncedSwitch) : List (Bool × Nat) → Nat
  | [] => 0
  | p :: rest =>
      let sw2 := debounceSwitch sw p.1 p.2
      (if sw2.changed then 1 else 0) + debounceChangedCount sw2 rest

-- ===== Display mode sequencer (lines 105-108, 437-522, 524-618) =====

/-- The blanking configuration globals (lines 55-61). -/
structure DisplayConfig where
  timeBlankingEnabled : Bool
  ontime : Int
  offtime : Int
  weekendBlankingEnabled : Bool
  weekendDay1 : String
  weekendDay2 : String
deriving DecidableEq

/-- The per-call inputs of `updateDisplayStateIfNeeded` read from the time
source: `tz.dateTime("His")` as an integer, `tz.dateTime("l")`,
`tz.second()`, and `sw_HOLD.state`. -/
structure SeqInput where
  currentTime : Int
  currentDay : String
  second : Nat
  holdState : Bool
deriving DecidableEq

/-- The mutable globals read and written by the display mode sequencer. -/
structure DisplaySys where
  emulation : Emulation
  model : Model
  currentDisplayMode : DisplayMode
  datecounter : Int
  manualOverride : Bool
  overrideForBlank : Bool
  touchoverride : Bool
  messageindex : Nat
  inEditMode : Bool
  autoDate : Bool
deriving DecidableEq

/-- The effect of `updateDisplayValue` (lines 437-522) on
`currentDisplayMode`: the only mode write is the revert to `MODE_TIME`
when `MODE_DATE` is rendered outside WIFI emulation on a model other than
GC-1092D (lines 482-487); all other branches only fill the display
buffer. -/
def updateDisplayValueMode (s : DisplaySys) : DisplaySys :=
  if s.currentDisplayMode = MODE_DATE ∧
      ¬(s.emulation = WIFI ∨ s.model = MODEL_GC_1092D) then
    { s with currentDisplayMode := MODE_TIME }
  else s

/-- The "Normal blanking logic" tail of `updateDisplayStateIfNeeded`
(lines 599-617) followed by its closing `updateDisplayValue()` call. -/
def normalBlanking (isWeekend withinDisplayWindow : Bool) (s : DisplaySys) : DisplaySys :=
  let s1 :=
    if s.currentDisplayMode ≠ MODE_DATE ∧ s.overrideForBlank = false then
      if isWeekend = true ∧ s.overrideForBlank = false then
        { s with currentDisplayMode := MODE_MESSAGE, messageindex := 9 }
      else if isWeekend = false ∧ withinDisplayWindow = false ∧
          s.overrideForBlank = false then
        { s with currentDisplayMode := MODE_MESSAGE, messageindex := 9 }
      else if isWeekend = false ∧ withinDisplayWindow = true ∧
          s.overrideForBlank = false then
        { s with currentDisplayMode := MODE_TIME }
      else s
    else s
  updateDisplayValueMode s1

/-- The GC-1092D block of the MK5017 branch (lines 544-569): auto-date /
touch-override display switching keyed on `tz.second() % 10`, followed by
the touch-countdown logic. -/
def autoDateStep (second : Nat) (s : DisplaySys) : DisplaySys :=
  let s1 :=
    if s.autoDate = true ∨ s.touchoverride = true then
      if second % 10 = 8 ∨ second % 10 = 9 then
        { s with currentDisplayMode := MODE_DATE }
      else if s.currentDisplayMode ≠ MODE_TIME ∧ s.touchoverride = false then
        { s with currentDisplayMode := MODE_TIME }
      else s
    else s
  if 1 < s1.datecounter ∧ (s1.autoDate = false ∨ s1.touchoverride = true) then
    { s1 with datecounter := s1.datecounter - 1 }
  else if s1.currentDisplayMode = MODE_DATE ∧
      (s1.autoDate = false ∨ s1.touchoverride = true) then
    { s1 with datecounter := 0, touchoverride := false,
              currentDisplayMode := MODE_TIME }
  else s1

/-- The WIFI tail of `updateDisplayStateIfNeeded` (lines 572-617): the
DATE countdown, the manual-override logic with its early return, and the
normal blanking logic. -/
def wifiSequencerStep (isWeekend withinDisplayWindow : Bool)
    (s : DisplaySys) : DisplaySys :=
  let s1 :=
    if 0 < s.datecounter ∧ s.currentDisplayMode = MODE_DATE then
      { s with datecounter := s.datecounter - 1 }
    else if s.currentDisplayMode = MODE_DATE ∧ s.datecounter = 0 then
      { s with touchoverride := false, currentDisplayMode := MODE_TIME }
    else s
  if s1.manualOverride = true then
    if s1.currentDisplayMode = MODE_DATE then
      normalBlanking isWeekend withinDisplayWindow s1
    else if (s1.overrideForBlank = false ∧ withinDisplayWindow = true) ∨
        (s1.overrideForBlank = true ∧ withinDisplayWindow = false) then
      normalBlanking isWeekend withinDisplayWindow { s1 with manualOverride := false }
    else
      updateDisplayValueMode
        { s1 with
            currentDisplayMode := if s1.overrideForBlank then MODE_MESSAGE else MODE_TIME,
            messageindex := if s1.overrideForBlank then 9 else s1.messageindex }
  else
    normalBlanking isWeekend withinDisplayWindow s1

/-- `updateDisplayStateIfNeeded` (lines 524-618).  The `timestring` /
`datestring` refresh (lines 530-533) only rewrites display text and is
omitted; every write to the sequencer state is modelled.  The MK5017
branch returns without running the blanking logic, exactly as the early
`return` at line 570 does. -/
def updateDisplayStateIfNeeded (cfg : DisplayConfig) (inp : SeqInput)
    (s : DisplaySys) : DisplaySys :=
  let isWeekend : Bool := cfg.weekendBlankingEnabled &&
    (inp.currentDay == cfg.weekendDay1 || inp.currentDay == cfg.weekendDay2)
  let withinDisplayWindow : Bool := !cfg.timeBlankingEnabled ||
    (decide (cfg.ontime ≤ inp.currentTime) && decide (inp.currentTime < cfg.offtime))
  if s.emulation = MK5017 then
    if s.model = MODEL_BOGUS then s
    else if s.model = MODEL_GC_1092D ∧ s.inEditMode = false then
      autoDateStep inp.second s
    else s
  else
    wifiSequencerStep isWeekend withinDisplayWindow s

-- =====================================================================
-- Theorems
-- =====================================================================

theorem u32sub_self (a : Nat) : u32sub a a = 0 := by
  unfold u32sub u32 u32Mod
  omega

theorem u32sub_of_le (a b : Nat) (hb : b ≤ a) (ha : a < u32Mod) :
    u32sub a b = a - b := by
  unfold u32sub u32 u32Mod at *
  omega

theorem u32add_eq (a b : Nat) (h : a + b < u32Mod) : u32add a b = a + b := by
  unfold u32add u32Mod at *
  omega

theorem alarmToneStop_toneActive (s : ToneState) : (alarmToneStop s).toneActive = false := by
  cases h : s.toneActive <;> simp [alarmToneStop, h]

theorem alarmToneStart_toneActive (s : ToneState) : (alarmToneStart s).toneActive = true := by
  cases h : s.toneActive <;> simp [alarmToneStart, h]

theorem debounceSwitch_stable (sw : DebouncedSwitch) (r : Bool) (t : Nat)
    (h : sw.state = r) :
    (debounceSwitch sw r t).state = r ∧ (debounceSwitch sw r t).changed = false := by
  simp only [debounceSwitch]
  split_ifs <;> simp_all

theorem debounceRun_no_change (r : Bool) :
    ∀ (inputs : List (Bool × Nat)) (sw : DebouncedSwitch), sw.state = r →
      (∀ p ∈ inputs, p.1 = r) →
      (debounceRun sw inputs).state = r ∧ debounceChangedCount sw inputs = 0 := by
  intro inputs
  induction inputs with
  | nil =>
      intro sw h _
      exact ⟨h, rfl⟩
  | cons p rest ih =>
      intro sw h hall
      have hp : p.1 = r := hall p (by simp)
      have hstep := debounceSwitch_stable sw r p.2 h
      have hstate : (debounceSwitch sw p.1 p.2).state = r := by rw [hp]; exact hstep.1
      have hch : (debounceSwitch sw p.1 p.2).changed = false := by rw [hp]; exact hstep.2
      have hrest := ih (debounceSwitch sw p.1 p.2) hstate
        (fun q hq => hall q (List.mem_cons_of_mem p hq))
      constructor
      · simpa [debounceRun] using hrest.1
      · simp [debounceChangedCount, hch, hrest.2]

/-- Claim C1: whenever `updateAlarm` runs with `alarmState = ARMED`,
`alarmEnabled = true` and `timeSeconds = alarmSeconds`, the state becomes
`SOUNDING` in that same call; and whenever it runs with
`alarmState = SOUNDING`, `alarmEnabled` still true, and 3600 or more
seconds elapsed since the alarm time, the state becomes `IDLE` and the
tone is stopped. -/
theorem updateAlarm_sounding_lifecycle :
    (∀ s : AlarmSys, s.alarmState = ALARM_ARMED → s.alarmEnabled = true →
      s.timeSeconds = s.alarmSeconds →
      (updateAlarm s).alarmState = ALARM_SOUNDING) ∧
    (∀ s : AlarmSys, s.alarmState = ALARM_SOUNDING → s.alarmEnabled = true →
      s.timeSeconds < u32Mod → s.alarmSeconds ≤ s.timeSeconds →
      3600 ≤ s.timeSeconds - s.alarmSeconds →
      (updateAlarm s).alarmState = ALARM_IDLE ∧
      (updateAlarm s).tone.toneActive = false) := by
  constructor
  · intro s hst hen heq
    simp [updateAlarm, hst, hen, heq]
  · intro s hst hen hlt hle h3600
    have hsub : u32sub s.timeSeconds s.alarmSeconds = s.timeSeconds - s.alarmSeconds :=
      u32sub_of_le _ _ hle hlt
    have hge : u32sub s.timeSeconds s.alarmSeconds ≥ ALARM_MAX_MIN * 60 := by
      rw [hsub]
      simpa [ALARM_MAX_MIN] using h3600
    simp [updateAlarm, hst, hen, hge, alarmToneStop_toneActive]

/-- Claim C1 witness: concrete firing at the alarm second, and concrete
auto-silence after exactly 3600 s of sounding. -/
theorem updateAlarm_sounding_lifecycle_witness :
    (updateAlarm ⟨ALARM_ARMED, true, 25200, 25200, 0, ⟨false, 0, 0⟩⟩).alarmState
      = ALARM_SOUNDING ∧
    ((updateAlarm ⟨ALARM_SOUNDING, true, 28800, 25200, 0, ⟨true, 1, 0⟩⟩).alarmState
      = ALARM_IDLE ∧
     (updateAlarm ⟨ALARM_SOUNDING, true, 28800, 25200, 0, ⟨true, 1, 0⟩⟩).tone.toneActive
      = false) :=
  ⟨updateAlarm_sounding_lifecycle.1 _ rfl rfl rfl,
   updateAlarm_sounding_lifecycle.2 _ rfl rfl (by decide) (by decide) (by decide)⟩

/-- Claim C2: `requestSnooze` while `SOUNDING` with time-of-day `T` sets
`snoozeTargetS = T + 420`, stops the tone, and moves to `SNOOZE`;
in every other alarm state the call leaves the entire state (alarm state,
snooze target, tone) unchanged. -/
theorem requestSnooze_semantics :
    (∀ s : AlarmSys, s.alarmState = ALARM_SOUNDING →
      s.timeSeconds + 420 < u32Mod →
      (requestSnooze s).snoozeTargetS = s.timeSeconds + 420 ∧
      (requestSnooze s).tone.toneActive = false ∧
      (requestSnooze s).alarmState = ALARM_SNOOZE) ∧
    (∀ s : AlarmSys,
      s.alarmState = ALARM_IDLE ∨ s.alarmState = ALARM_ARMED ∨
        s.alarmState = ALARM_SNOOZE →
      requestSnooze s = s) := by
  constructor
  · intro s hst hov
    have htgt : u32add s.timeSeconds (SNOOZE_MIN * 60) = s.timeSeconds + 420 := by
      have := u32add_eq s.timeSeconds 420 hov
      simpa [SNOOZE_MIN] using this
    refine ⟨?_, ?_, ?_⟩ <;> simp [requestSnooze, hst, htgt, alarmToneStop_toneActive]
  · intro s hst
    have hne : s.alarmState ≠ ALARM_SOUNDING := by
      rcases hst with h | h | h <;> simp [h]
    simp [requestSnooze, hne]

/-- Claim C2 witness: concrete snooze from `SOUNDING` at T = 25200, and a
concrete no-op from `ARMED`. -/
theorem requestSnooze_semantics_witness :
    ((requestSnooze ⟨ALARM_SOUNDING, true, 25200, 25200, 0, ⟨true, 1, 0⟩⟩).snoozeTargetS
       = 25620 ∧
     (requestSnooze ⟨ALARM_SOUNDING, true, 25200, 25200, 0, ⟨true, 1, 0⟩⟩).tone.toneActive
       = false ∧
     (requestSnooze ⟨ALARM_SOUNDING, true, 25200, 25200, 0, ⟨true, 1, 0⟩⟩).alarmState
       = ALARM_SNOOZE) ∧
    requestSnooze ⟨ALARM_ARMED, true, 100, 200, 0, ⟨false, 0, 0⟩⟩
      = ⟨ALARM_ARMED, true, 100, 200, 0, ⟨false, 0, 0⟩⟩ :=
  ⟨requestSnooze_semantics.1 _ rfl (by decide),
   requestSnooze_semantics.2 _ (Or.inr (Or.inl rfl))⟩

/-- Claim C6: the snooze dispatch guard
`sw_5.changed && (info.model != (MODEL_GC_1092D || MODEL_BOGUS))`
compares the model's numeric value against the constant 1 produced by
the boolean OR, so it equals `changed && model ≠ MODEL_GC_1092D` for
every model; it differs from the intended "neither GC-1092D nor BOGUS"
guard, and with `model = MODEL_BOGUS` and `sw_5.changed = true` the
dispatch still invokes `requestSnooze`. -/
theorem snoozeGuard_model_check :
    (∀ (changed : Bool) (m : Model),
      snoozeGuard changed m = (changed && decide (m ≠ MODEL_GC_1092D))) ∧
    (snoozeGuard true MODEL_BOGUS = true ∧
     intendedSnoozeGuard true MODEL_BOGUS = false) ∧
    (∀ s : AlarmSys, dispatchSnoozeStep true MODEL_BOGUS s = requestSnooze s) := by
  refine ⟨?_, ⟨by decide, by decide⟩, ?_⟩
  · intro changed m
    cases changed <;> cases m <;> rfl
  · intro s
    simp [dispatchSnoozeStep, snoozeGuard, cppBoolOr, Model.val]

/-- Claim C9: after every run of `alarmToneDriver` the tone is active only
if `alarmState = SOUNDING` (every other state forces it off); while
`SOUNDING`, a burst is started on the top-of-second pulse, forcibly
stopped on the half-second pulse, and left alone when neither pulse is
set. -/
theorem alarmToneDriver_silence :
    (∀ (s : AlarmSys) (t h : Bool), s.alarmState ≠ ALARM_SOUNDING →
      (alarmToneDriver s t h).tone.toneActive = false) ∧
    (∀ (s : AlarmSys) (t h : Bool),
      (alarmToneDriver s t h).tone.toneActive = true →
      s.alarmState = ALARM_SOUNDING) ∧
    (∀ s : AlarmSys, s.alarmState = ALARM_SOUNDING →
      (alarmToneDriver s true false).tone.toneActive = true) ∧
    (∀ (s : AlarmSys) (t : Bool), s.alarmState = ALARM_SOUNDING →
      (alarmToneDriver s t true).tone.toneActive = false) ∧
    (∀ s : AlarmSys, s.alarmState = ALARM_SOUNDING →
      (alarmToneDriver s false false).tone = s.tone) := by
  have hoff : ∀ (s : AlarmSys) (t h : Bool), s.alarmState ≠ ALARM_SOUNDING →
      (alarmToneDriver s t h).tone.toneActive = false := by
    intro s t h hne
    simp only [alarmToneDriver, if_pos hne]
    cases hx : s.tone.toneActive <;> simp [alarmToneStop, hx]
  refine ⟨hoff, ?_, ?_, ?_, ?_⟩
  · intro s t h hact
    by_contra hne
    rw [hoff s t h hne] at hact
    exact Bool.false_ne_true hact
  · intro s hst
    have hne : ¬ s.alarmState ≠ ALARM_SOUNDING := by simp [hst]
    simp only [alarmToneDriver, if_neg hne, if_pos rfl]
    cases hx : s.tone.toneActive <;> simp [alarmToneStart, hx]
  · intro s t hst
    have hne : ¬ s.alarmState ≠ ALARM_SOUNDING := by simp [hst]
    cases ht : t <;>
      simp [alarmToneDriver, hne, alarmToneStop_toneActive]
  · intro s hst
    have hne : ¬ s.alarmState ≠ ALARM_SOUNDING := by simp [hst]
    simp [alarmToneDriver, hne]

/-- Claim C9 witness: with the alarm `ARMED` and the tone left running,
one driver run silences it; with the alarm `SOUNDING` at the top of a
second the burst starts. -/
theorem alarmToneDriver_silence_witness :
    (alarmToneDriver ⟨ALARM_ARMED, true, 0, 0, 0, ⟨true, 1, 0⟩⟩ false false).tone.toneActive
      = false ∧
    (alarmToneDriver ⟨ALARM_SOUNDING, true, 0, 0, 0, ⟨false, 0, 0⟩⟩ true false).tone.toneActive
      = true :=
  ⟨alarmToneDriver_silence.1 _ false false (by decide),
   alarmToneDriver_silence.2.2.1 _ rfl⟩

/-- Claim C10: `alarmToneStart` is a no-op (peripheral untouched) when the
tone is already active, `alarmToneStop` is a no-op when it is already
inactive, both are idempotent, and after any call `toneActive` equals the
requested state. -/
theorem alarmTone_idempotent :
    (∀ s : ToneState, s.toneActive = true → alarmToneStart s = s) ∧
    (∀ s : ToneState, s.toneActive = false → alarmToneStop s = s) ∧
    (∀ s : ToneState, alarmToneStart (alarmToneStart s) = alarmToneStart s) ∧
    (∀ s : ToneState, alarmToneStop (alarmToneStop s) = alarmToneStop s) ∧
    (∀ s : ToneState,
      (alarmToneStart s).toneActive = true ∧ (alarmToneStop s).toneActive = false) := by
  refine ⟨?_, ?_, ?_, ?_, ?_⟩
  · intro s h
    simp [alarmToneStart, h]
  · intro s h
    simp [alarmToneStop, h]
  · intro s
    cases h : s.toneActive <;> simp [alarmToneStart, h]
  · intro s
    cases h : s.toneActive <;> simp [alarmToneStop, h]
  · intro s
    cases h : s.toneActive <;> simp [alarmToneStart, alarmToneStop, h]

/-- Claim C10 witness: double start from inactive equals single start, and
a start on an already-active tone issues no new peripheral command. -/
theorem alarmTone_idempotent_witness :
    alarmToneStart ⟨true, 3, 2⟩ = ⟨true, 3, 2⟩ ∧
    alarmToneStop ⟨false, 3, 2⟩ = ⟨false, 3, 2⟩ ∧
    alarmToneStart (alarmToneStart ⟨false, 0, 0⟩) = alarmToneStart ⟨false, 0, 0⟩ :=
  ⟨alarmTone_idempotent.1 _ rfl,
   alarmTone_idempotent.2.1 _ rfl,
   alarmTone_idempotent.2.2.1 _⟩

/-- Claim C3: a raw input constant for less than the 1000 µs quiet
interval since its last raw transition never changes the stable state; a
raw flicker restarts the quiet timer (and changes nothing else); once the
raw input has been constant for more than the quiet interval and differs
from the stable state, the stable state flips to the raw value and
`changed` is true for that call; `changed` is recomputed on every call and
is true exactly when the stable state flips in that call; and over any
further sequence of calls whose raw value equals the stable state, the
state never changes and `changed` is never set, so a flip happens exactly
once per accepted transition. -/
theorem debounceSwitch_contract :
    (∀ (sw : DebouncedSwitch) (raw : Bool) (now : Nat),
      raw = sw.lastRead → u32sub now sw.lastChange < debounceDelay →
      (debounceSwitch sw raw now).state = sw.state) ∧
    (∀ (sw : DebouncedSwitch) (raw : Bool) (now : Nat),
      raw ≠ sw.lastRead →
      (debounceSwitch sw raw now).lastChange = now ∧
      (debounceSwitch sw raw now).state = sw.state ∧
      (debounceSwitch sw raw now).changed = false) ∧
    (∀ (sw : DebouncedSwitch) (raw : Bool) (now : Nat),
      raw = sw.lastRead → debounceDelay < u32sub now sw.lastChange → raw ≠ sw.state →
      (debounceSwitch sw raw now).state = raw ∧
      (debounceSwitch sw raw now).changed = true) ∧
    (∀ (sw : DebouncedSwitch) (raw : Bool) (now : Nat),
      (debounceSwitch sw raw now).changed =
        ((debounceSwitch sw raw now).state != sw.state)) ∧
    (∀ (inputs : List (Bool × Nat)) (sw : DebouncedSwitch) (r : Bool),
      sw.state = r → (∀ p ∈ inputs, p.1 = r) →
      (debounceRun sw inputs).state = r ∧ debounceChangedCount sw inputs = 0) := by
  refine ⟨?_, ?_, ?_, ?_, ?_⟩
  · intro sw raw now h hq
    simp only [debounceSwitch]
    split_ifs <;> simp_all
    omega
  · intro sw raw now h
    simp only [debounceSwitch]
    split_ifs <;> simp_all [u32sub_self]
  · intro sw raw now h hq hs
    simp only [debounceSwitch]
    split_ifs <;> simp_all
  · intro sw raw now
    simp only [debounceSwitch]
    split_ifs <;> simp_all
  · intro inputs sw r h hall
    exact debounceRun_no_change r inputs sw h hall

/-- Claim C3 witness: a raw value that has differed from the stable state
for 2000 µs flips the state and reports `changed`; a 500 µs-old sample
does not; and a ten-call steady run after the flip reports no further
change. -/
theorem debounceSwitch_contract_witness :
    ((debounceSwitch ⟨false, false, true, 0, 0⟩ true 2000).state = true ∧
     (debounceSwitch ⟨false, false, true, 0, 0⟩ true 2000).changed = true) ∧
    (debounceSwitch ⟨false, false, true, 0, 0⟩ true 500).state = false ∧
    ((debounceRun ⟨true, true, true, 2000, 0⟩
        [(true, 3000), (true, 4000), (true, 5000)]).state = true ∧
     debounceChangedCount ⟨true, true, true, 2000, 0⟩
        [(true, 3000), (true, 4000), (true, 5000)] = 0) :=
  ⟨debounceSwitch_contract.2.2.1 ⟨false, false, true, 0, 0⟩ true 2000 rfl (by decide)
      (by decide),
   debounceSwitch_contract.1 ⟨false, false, true, 0, 0⟩ true 500 rfl (by decide),
   debounceSwitch_contract.2.2.2.2 [(true, 3000), (true, 4000), (true, 5000)]
      ⟨true, true, true, 2000, 0⟩ true rfl (by decide)⟩

/-- Claim C4: for every minutes value below 60, `incrementMinuteOnes`
replaces only the ones digit with (ones + 1) mod 10 and never changes the
tens digit; from 59 the result is 50, not 60 and not 0. -/
theorem incrementMinuteOnes_ones_only :
    (∀ minutes : Nat, minutes < 60 →
      incrementMinuteOnes minutes / 10 = minutes / 10 ∧
      incrementMinuteOnes minutes % 10 = (minutes % 10 + 1) % 10) ∧
    incrementMinuteOnes 59 = 50 ∧
    incrementMinuteOnes 59 ≠ 60 ∧ incrementMinuteOnes 59 ≠ 0 := by
  refine ⟨by decide, by decide, by decide, by decide⟩

/-- Claim C4 witness: the digit facts evaluated at minutes = 59. -/
theorem incrementMinuteOnes_ones_only_witness :
    incrementMinuteOnes 59 / 10 = 59 / 10 ∧
    incrementMinuteOnes 59 % 10 = (59 % 10 + 1) % 10 :=
  incrementMinuteOnes_ones_only.1 59 (by decide)

/-- Claim C8: `loadEEPROM` keeps an in-range stored emulation byte
(< EmulationCount = 2) and otherwise falls back to the default WIFI
emulation, keeps an in-range stored model byte (< ModelCount = 5) and
otherwise falls back to MODEL_GC_1005; in particular a stored emulation
byte of 99 yields the default emulation. -/
theorem loadEEPROM_fallback :
    (∀ e md : Nat, e < EmulationCount →
      (loadEEPROM e md).emulation = Emulation.ofByte e) ∧
    (∀ e md : Nat, EmulationCount ≤ e →
      (loadEEPROM e md).emulation = defaultEmulation) ∧
    (∀ e md : Nat, md < ModelCount → (loadEEPROM e md).model = Model.ofByte md) ∧
    (∀ e md : Nat, ModelCount ≤ md → (loadEEPROM e md).model = defaultModel) ∧
    (∀ md : Nat, (loadEEPROM 99 md).emulation = WIFI) ∧
    defaultEmulation = WIFI ∧ defaultModel = MODEL_GC_1005 := by
  refine ⟨?_, ?_, ?_, ?_, ?_, rfl, rfl⟩
  · intro e md h
    simp [loadEEPROM, h]
  · intro e md h
    simp [loadEEPROM, Nat.not_lt.mpr h]
  · intro e md h
    simp [loadEEPROM, h]
  · intro e md h
    simp [loadEEPROM, Nat.not_lt.mpr h]
  · intro md
    simp [loadEEPROM, EmulationCount, defaultEmulation]

/-- Claim C8 witness: byte 99 falls back to WIFI, model byte 7 falls back
to GC-1005, and in-range bytes 1/2 are kept. -/
theorem loadEEPROM_fallback_witness :
    (loadEEPROM 99 0).emulation = defaultEmulation ∧
    (loadEEPROM 1 7).model = defaultModel ∧
    (loadEEPROM 1 2).emulation = Emulation.ofByte 1 ∧
    (loadEEPROM 1 2).model = Model.ofByte 2 :=
  ⟨loadEEPROM_fallback.2.1 99 0 (by decide),
   loadEEPROM_fallback.2.2.2.1 1 7 (by decide),
   loadEEPROM_fallback.1 1 2 (by decide),
   loadEEPROM_fallback.2.2.1 1 2 (by decide)⟩

theorem normalBlanking_date (iw wdw : Bool) (t : DisplaySys)
    (h1 : t.currentDisplayMode = MODE_DATE) (h2 : t.emulation = WIFI) :
    normalBlanking iw wdw t = t := by
  simp [normalBlanking, updateDisplayValueMode, h1, h2]

theorem wifiSequencerStep_date (iw wdw : Bool) (s : DisplaySys)
    (hemu : s.emulation = WIFI) (hmode : s.currentDisplayMode = MODE_DATE)
    (hcnt : 0 < s.datecounter) :
    (wifiSequencerStep iw wdw s).currentDisplayMode = MODE_DATE ∧
    (wifiSequencerStep iw wdw s).datecounter = s.datecounter - 1 := by
  have hc1 : 0 < s.datecounter ∧ s.currentDisplayMode = MODE_DATE := ⟨hcnt, hmode⟩
  have h1 : ({ s with datecounter := s.datecounter - 1 } : DisplaySys).currentDisplayMode
      = MODE_DATE := hmode
  have h2 : ({ s with datecounter := s.datecounter - 1 } : DisplaySys).emulation
      = WIFI := hemu
  simp only [wifiSequencerStep]
  rw [if_pos hc1, if_pos h1, ite_self,
    normalBlanking_date iw wdw _ h1 h2]
  exact ⟨h1, rfl⟩

theorem autoDateStep_autoDate (second : Nat) (s : DisplaySys)
    (hauto : s.autoDate = true) (htouch : s.touchoverride = false) :
    (autoDateStep second s).currentDisplayMode =
      (if second % 10 = 8 ∨ second % 10 = 9 then MODE_DATE else MODE_TIME) := by
  simp only [autoDateStep]
  split_ifs <;> simp_all

theorem autoDateStep_countdown (second : Nat) (s : DisplaySys)
    (htouch : s.touchoverride = true) (hcnt : 1 < s.datecounter) :
    (autoDateStep second s).datecounter = s.datecounter - 1 := by
  simp only [autoDateStep]
  split_ifs <;> simp_all

theorem autoDateStep_revert (second : Nat) (s : DisplaySys)
    (htouch : s.touchoverride = true) (hcnt : s.datecounter ≤ 1)
    (hsec : ¬(second % 10 = 8 ∨ second % 10 = 9))
    (hmode : s.currentDisplayMode = MODE_DATE) :
    (autoDateStep second s).currentDisplayMode = MODE_TIME ∧
    (autoDateStep second s).touchoverride = false := by
  simp only [autoDateStep]
  split_ifs <;> simp_all
  omega

/-- Claim C5: in WIFI emulation, whenever the sequencer runs with
`currentDisplayMode = DATE` and `datecounter > 0`, the display mode after
the call is still `DATE` and the countdown is decremented by one,
regardless of the manual-override, override-for-blank, weekend-blanking
and time-window-blanking conditions. -/
theorem dateCountdown_precedence :
    ∀ (cfg : DisplayConfig) (inp : SeqInput) (s : DisplaySys),
      s.emulation = WIFI → s.currentDisplayMode = MODE_DATE → 0 < s.datecounter →
      (updateDisplayStateIfNeeded cfg inp s).currentDisplayMode = MODE_DATE ∧
      (updateDisplayStateIfNeeded cfg inp s).datecounter = s.datecounter - 1 := by
  intro cfg inp s hemu hmode hcnt
  have hM : ¬ s.emulation = MK5017 := by
    rw [hemu]
    exact fun hc => Emulation.noConfusion hc
  have hrw : updateDisplayStateIfNeeded cfg inp s =
      wifiSequencerStep
        (cfg.weekendBlankingEnabled &&
          (inp.currentDay == cfg.weekendDay1 || inp.currentDay == cfg.weekendDay2))
        (!cfg.timeBlankingEnabled ||
          (decide (cfg.ontime ≤ inp.currentTime) && decide (inp.currentTime < cfg.offtime)))
        s := by
    simp only [updateDisplayStateIfNeeded]
    rw [if_neg hM]
  rw [hrw]
  exact wifiSequencerStep_date _ _ s hemu hmode hcnt

/-- Claim C5 witness: countdown = 3 on a blanked weekend day outside the
display window, with manual override forcing blank, still renders DATE
and decrements to 2. -/
theorem dateCountdown_precedence_witness :
    (updateDisplayStateIfNeeded ⟨true, 73000, 180000, true, "Saturday", "Sunday"⟩
        ⟨200000, "Saturday", 0, false⟩
        ⟨WIFI, MODEL_GC_1005, MODE_DATE, 3, true, true, true, 9, false, false⟩).currentDisplayMode
      = MODE_DATE ∧
    (updateDisplayStateIfNeeded ⟨true, 73000, 180000, true, "Saturday", "Sunday"⟩
        ⟨200000, "Saturday", 0, false⟩
        ⟨WIFI, MODEL_GC_1005, MODE_DATE, 3, true, true, true, 9, false, false⟩).datecounter
      = (⟨WIFI, MODEL_GC_1005, MODE_DATE, 3, true, true, true, 9, false, false⟩ :
          DisplaySys).datecounter - 1 :=
  dateCountdown_precedence _ _ _ rfl rfl (by decide)

/-- Claim C7 counterexample: in MK5017 emulation on the GC-1092D with
auto-date active, no edit mode and no touch override, at second 8 the
sequencer switches the display to DATE although the tens digit of the
seconds (8 / 10 = 0) is neither 8 nor 9 — the code keys on the ones
digit, so the claim as stated (DATE exactly when the tens digit is 8 or
9) fails at this input. -/
theorem autoDate_tens_digit_counterexample :
    (updateDisplayStateIfNeeded ⟨true, 73000, 180000, true, "Saturday", "Sunday"⟩
        ⟨120000, "Monday", 8, false⟩
        ⟨MK5017, MODEL_GC_1092D, MODE_TIME, 0, false, false, false, 0, false,
          true⟩).currentDisplayMode = MODE_DATE ∧
    ¬((8 : Nat) / 10 = 8 ∨ (8 : Nat) / 10 = 9) := by
  decide

/-- Claim C7 (amended): in MK5017 emulation on the GC-1092D with
auto-date active, not in edit mode and no manual touch override, the
sequencer sets the display mode to DATE exactly during the two seconds of
each ten-second window whose ONES digit of seconds (seconds mod 10)
equals 8 or 9, and back to TIME for the other seconds; when a manual
touch override is active, the countdown-based reversion applies: a
countdown above 1 is decremented, and otherwise a DATE display outside
the 8/9 seconds reverts to TIME and clears the override. -/
theorem autoDate_ones_digit :
    ∀ (cfg : DisplayConfig) (inp : SeqInput) (s : DisplaySys),
      s.emulation = MK5017 → s.model = MODEL_GC_1092D → s.inEditMode = false →
      ((s.autoDate = true → s.touchoverride = false →
        (updateDisplayStateIfNeeded cfg inp s).currentDisplayMode =
          (if inp.second % 10 = 8 ∨ inp.second % 10 = 9 then MODE_DATE
           else MODE_TIME)) ∧
       (s.touchoverride = true → 1 < s.datecounter →
        (updateDisplayStateIfNeeded cfg inp s).datecounter = s.datecounter - 1) ∧
       (s.touchoverride = true → s.datecounter ≤ 1 →
        ¬(inp.second % 10 = 8 ∨ inp.second % 10 = 9) →
        s.currentDisplayMode = MODE_DATE →
        (updateDisplayStateIfNeeded cfg inp s).currentDisplayMode = MODE_TIME ∧
        (updateDisplayStateIfNeeded cfg inp s).touchoverride = false)) := by
  intro cfg inp s hemu hmodel hedit
  have hb : ¬ s.model = MODEL_BOGUS := by
    rw [hmodel]
    exact fun hc => Model.noConfusion hc
  have hrw : updateDisplayStateIfNeeded cfg inp s = autoDateStep inp.second s := by
    simp only [updateDisplayStateIfNeeded]
    rw [if_pos hemu, if_neg hb, if_pos ⟨hmodel, hedit⟩]
  refine ⟨?_, ?_, ?_⟩
  · intro hauto htouch
    rw [hrw]
    exact autoDateStep_autoDate inp.second s hauto htouch
  · intro htouch hcnt
    rw [hrw]
    exact autoDateStep_countdown inp.second s htouch hcnt
  · intro htouch hcnt hsec hmode
    rw [hrw]
    exact autoDateStep_revert inp.second s htouch hcnt hsec hmode

/-- Claim C7 witness: at second 18 (ones digit 8) the display goes to
DATE; the same state at second 17 goes to TIME. -/
theorem autoDate_ones_digit_witness :
    (updateDisplayStateIfNeeded ⟨true, 73000, 180000, true, "Saturday", "Sunday"⟩
        ⟨120000, "Monday", 18, false⟩
        ⟨MK5017, MODEL_GC_1092D, MODE_TIME, 0, false, false, false, 0, false,
          true⟩).currentDisplayMode =
      (if (18 : Nat) % 10 = 8 ∨ (18 : Nat) % 10 = 9 then MODE_DATE else MODE_TIME) ∧
    (updateDisplayStateIfNeeded ⟨true, 73000, 180000, true, "Saturday", "Sunday"⟩
        ⟨120000, "Monday", 17, false⟩
        ⟨MK5017, MODEL_GC_1092D, MODE_TIME, 0, false, false, false, 0, false,
          true⟩).currentDisplayMode =
      (if (17 : Nat) % 10 = 8 ∨ (17 : Nat) % 10 = 9 then MODE_DATE else MODE_TIME) :=
  ⟨(autoDate_ones_digit _ ⟨120000, "Monday", 18, false⟩ _ rfl rfl rfl).1 rfl rfl,
   (autoDate_ones_digit _ ⟨120000, "Monday", 17, false⟩ _ rfl rfl rfl).1 rfl rfl⟩

end MK5717
